import Mathlib

/-!
Shallow embedding of `carla_spawn_objects.py` (class `CarlaSpawnObjects`).

The embedding models the orchestration logic of the node:
classification of configuration entries (`spawn_objects`, lines 79-106),
spawn-point resolution (`setup_vehicles` lines 137-172,
`check_spawn_point_param`, `create_spawn_point`), the retry-until-success
spawn loop (lines 174-188), sensor provisioning (`setup_sensors`) and
teardown (`destroy`).

External collaborators are abstracted as function parameters:
the spawn service is a stream `responses : Nat -> SpawnResult` indexed by
the number of spawn calls issued so far, the ROS parameter server is a
map `params : String -> Option String`, the get-actor service is
`getActor : String -> Int`, and the destroy service is a stream of
per-call outcomes.  Every spawn request issued is recorded in a trace so
that "no request was issued" is an observable statement.

Numeric values are modelled as rationals.  The quaternion produced by
`tf.transformations.quaternion_from_euler` is external library code and is
abstracted as the constructor `Orientation.fromEuler` applied to the
degree inputs (the source converts to radians and builds the quaternion;
only which pose object is sent, not its numeric wire value, matters to
the claims).  A default-constructed `geometry_msgs Pose()` carries the
all-zero quaternion, which differs from the identity quaternion produced
by `quaternion_from_euler(0,0,0)`; the model keeps this distinction via
`Orientation.zeroQuat`.
-/

namespace CarlaSpawnObjects

/-- Characters of `pat` appear at the start of the second list.  Helper for
the substring test below. -/
def seqStarts : List Char → List Char → Bool
  | [], _ => true
  | _ :: _, [] => false
  | p :: ps, c :: cs => p == c && seqStarts ps cs

/-- Characters of `pat` appear contiguously somewhere in the second list. -/
def seqContains (pat : List Char) : List Char → Bool
  | [] => seqStarts pat []
  | c :: cs => seqStarts pat (c :: cs) || seqContains pat cs

/-- Models the Python substring test `pat in s` (used by the source as
`"pseudo" not in sensor_type`). -/
def strContains (s pat : String) : Bool :=
  seqContains pat.toList s.toList

/-- Auxiliary splitter: accumulates the current field (reversed) and cuts at
each separator character. -/
def splitCharAux (sep : Char) : List Char → List Char → List String
  | [], acc => [String.mk acc.reverse]
  | c :: cs, acc =>
    if c = sep then String.mk acc.reverse :: splitCharAux sep cs []
    else splitCharAux sep cs (c :: acc)

/-- Models Python `s.split(sep)` for a one-character separator (the source
uses `split(',')` and `split('.')`). -/
def splitOnChar (sep : Char) (s : String) : List String :=
  splitCharAux sep s.toList []

/-- Numeric value of a list of decimal digit characters. -/
def digitsVal (l : List Char) : Nat :=
  l.foldl (fun a c => a * 10 + (c.toNat - 48)) 0

/-- Models Python `float(s)` on plain decimal literals: an optional sign,
then digits with an optional single decimal point (at least one digit
overall).  Scientific notation, whitespace and special values such as
`inf` are not modelled; on any other input the parse fails, as `float`
raises `ValueError`. -/
def parseFloat? (s : String) : Option ℚ :=
  let signAndRest : Bool × List Char :=
    match s.toList with
    | '-' :: r => (true, r)
    | '+' :: r => (false, r)
    | r => (false, r)
  let neg := signAndRest.1
  let rest := signAndRest.2
  let signed : Nat → Int := fun n => if neg then -(n : Int) else (n : Int)
  let intPart := rest.takeWhile (fun c => c.isDigit)
  let tail := rest.dropWhile (fun c => c.isDigit)
  match tail with
  | [] =>
    if intPart.isEmpty then none
    else some (mkRat (signed (digitsVal intPart)) 1)
  | '.' :: fracPart =>
    if fracPart.all (fun c => c.isDigit) && !(intPart.isEmpty && fracPart.isEmpty) then
      some (mkRat (signed (digitsVal intPart * 10 ^ fracPart.length + digitsVal fracPart))
        (10 ^ fracPart.length))
    else none
  | _ => none

/-- Orientation part of a pose.  `fromEuler roll pitch yaw` stands for the
quaternion `quaternion_from_euler(radians(roll), radians(pitch),
radians(yaw))` computed by the external `tf` library on the degree inputs
(`create_spawn_point`, lines 269-277); `zeroQuat` is the all-zero
quaternion of a default-constructed `geometry_msgs` `Pose()` (line 171). -/
inductive Orientation where
  | zeroQuat : Orientation
  | fromEuler (roll pitch yaw : ℚ) : Orientation
deriving DecidableEq

/-- Pose message: position plus orientation. -/
structure Pose where
  px : ℚ
  py : ℚ
  pz : ℚ
  orientation : Orientation
deriving DecidableEq

/-- Default-constructed `Pose()` (line 171): zero position, all-zero
quaternion. -/
def Pose.empty : Pose := ⟨0, 0, 0, .zeroQuat⟩

/-- Embeds `create_spawn_point` (lines 264-278): position set from x, y, z
and orientation the quaternion of the given roll/pitch/yaw degrees. -/
def createSpawnPoint (x y z roll pitch yaw : ℚ) : Pose :=
  ⟨x, y, z, .fromEuler roll pitch yaw⟩

/-- Embeds `check_spawn_point_param` (lines 280-292): split the override
string on commas, reject unless exactly six components, parse each as a
float (a parse failure raises, modelled as `none`) and build the pose. -/
def checkSpawnPointParam (spawnPointParameter : String) : Option Pose :=
  let components := splitOnChar ',' spawnPointParameter
  if components.length ≠ 6 then none
  else do
    let x ← parseFloat? (components.getD 0 "")
    let y ← parseFloat? (components.getD 1 "")
    let z ← parseFloat? (components.getD 2 "")
    let roll ← parseFloat? (components.getD 3 "")
    let pitch ← parseFloat? (components.getD 4 "")
    let yaw ← parseFloat? (components.getD 5 "")
    pure (createSpawnPoint x y z roll pitch yaw)

/-- Raw `spawn_point` object of a configuration entry; each coordinate key
may be absent (`none`), in which case indexing it raises `KeyError` and
`pop` with a default returns the default. -/
structure SpawnPointCfg where
  x : Option ℚ
  y : Option ℚ
  z : Option ℚ
  roll : Option ℚ
  pitch : Option ℚ
  yaw : Option ℚ
deriving DecidableEq

/-- Raw sensor specification consumed by `setup_sensors`.  `type` and `id`
may be absent (their `pop` then raises `KeyError`); every key other than
`type`, `id` and `spawn_point` is forwarded verbatim to the backend as an
attribute. -/
structure SensorCfg where
  type : Option String
  id : Option String
  spawn_point : Option SpawnPointCfg
  attributes : List (String × String)
deriving DecidableEq

/-- Top-level configuration entry from `json_actors["objects"]`.  The
classification loop indexes `type` directly, so it is mandatory here;
`carla_id` is absent in the file and only assigned by the node itself in
sensors-only mode (line 106). -/
structure ActorCfg where
  type : String
  id : String
  spawn_point : Option SpawnPointCfg
  sensors : Option (List SensorCfg)
  carla_id : Option Int
  attributes : List (String × String)
deriving DecidableEq

/-- View of a top-level entry as the dictionary handed to `setup_sensors`
for global sensors (the same raw object, with `type` and `id` known to be
present). -/
def ActorCfg.asSensor (a : ActorCfg) : SensorCfg :=
  ⟨some a.type, some a.id, a.spawn_point, a.attributes⟩

/-- Python value of the ROS parameter `~spawn_sensors_only`
(`rospy.get_param` returns `None` when unset, and otherwise whatever the
launch file supplied: a bool, an int, a string, ...). -/
inductive PyVal where
  | none : PyVal
  | bool (b : Bool) : PyVal
  | int (n : Int) : PyVal
  | str (s : String) : PyVal
deriving DecidableEq

/-- Python truthiness, used by the bare `and self.spawn_sensors_only` test
on line 85. -/
def PyVal.truthy : PyVal → Bool
  | .none => false
  | .bool b => b
  | .int n => n != 0
  | .str s => s != ""

/-- Python identity test `is True` (lines 95, 104, 116): only the boolean
`True` itself passes; truthy values such as `1` or `"yes"` do not. -/
def PyVal.isTrue : PyVal → Bool
  | .bool b => b
  | _ => false

/-- Models `actor["type"].split('.')[0]` (line 84): the type-string text
before the first dot. -/
def actorCategory (t : String) : String :=
  (splitOnChar '.' t).headD ""

/-- Embeds the classification loop of `spawn_objects` (lines 79-94):
partitions the entries into global sensors and vehicles/walkers, skipping
anything else with a warning, and records whether a
`sensor.pseudo.actor_list` entry was seen while the sensors-only
parameter is truthy. -/
def classify (sso : PyVal) : List ActorCfg → List ActorCfg × List ActorCfg × Bool
  | [] => ([], [], false)
  | actor :: rest =>
    let (globalSensors, vehicles, found) := classify sso rest
    if actor.type = "sensor.pseudo.actor_list" ∧ sso.truthy then
      (actor :: globalSensors, vehicles, true)
    else if actorCategory actor.type = "sensor" then
      (actor :: globalSensors, vehicles, found)
    else if actorCategory actor.type = "vehicle" ∨ actorCategory actor.type = "walker" then
      (globalSensors, actor :: vehicles, found)
    else
      (globalSensors, vehicles, found)

/-- Spawn request message sent to `/carla/spawn_object` (fields set in
lines 131-135, 176, 236-245). -/
structure SpawnReq where
  type : String
  id : String
  attach_to : Int
  transform : Pose
  random_pose : Bool
  attributes : List (String × String)
deriving DecidableEq

/-- Response of the spawn service: the backend-assigned id, where `-1`
signals failure, plus an error string. -/
structure SpawnResult where
  id : Int
  error_string : String
deriving DecidableEq

/-- Mutable state of the node: the three ledger collections initialised
empty in `__init__` (lines 51-53), plus the trace of spawn requests
issued so far (the calls made through `spawn_object_service`, in order). -/
structure SpawnState where
  players : List Int
  vehiclesSensors : List (List Int)
  globalSensors : List Int
  calls : List SpawnReq
deriving DecidableEq

/-- State of a freshly constructed node. -/
def SpawnState.init : SpawnState := ⟨[], [], [], []⟩

/-- Message of the `UnboundLocalError` raised when an error handler of
`setup_sensors` formats `sensor_name` before any iteration has assigned
it (lines 253 and 258 reference `sensor_name`, which is only bound at
line 206). -/
def unboundSensorName : String :=
  "local variable referenced before assignment: sensor_name"

/-- Loop state of `setup_sensors`: the node state (for the call trace),
the accumulated `actors` result list, the `sensor_names` seen so far, and
whether the local `sensor_name` has been bound by some earlier iteration
(it is referenced by the error handlers, see `unboundSensorName`). -/
structure SensorLoop where
  st : SpawnState
  actors : List Int
  names : List String
  nameBound : Bool
deriving DecidableEq

/-- Spawn-point handling of one sensor (lines 213-234).  Returns `none`
when a mandatory key is missing (`KeyError`, the sensor is skipped):
unattached non-pseudo sensors must carry a spawn point with x, y and z,
while attached or pseudo sensors default every missing coordinate — and
the whole spawn point — to zero. -/
def sensorTransform (attachedVehicleId : Int) (sensorType : String)
    (sp? : Option SpawnPointCfg) : Option Pose :=
  if attachedVehicleId = 0 ∧ ¬ (strContains sensorType "pseudo" = true) then
    match sp? with
    | none => none
    | some sp =>
      match sp.x, sp.y, sp.z with
      | some x, some y, some z =>
        some (createSpawnPoint x y z (sp.roll.getD 0) (sp.pitch.getD 0) (sp.yaw.getD 0))
      | _, _, _ => none
  else
    match sp? with
    | none => some (createSpawnPoint 0 0 0 0 0 0)
    | some sp =>
      some (createSpawnPoint (sp.x.getD 0) (sp.y.getD 0) (sp.z.getD 0)
        (sp.roll.getD 0) (sp.pitch.getD 0) (sp.yaw.getD 0))

/-- Processing of a single sensor specification (the body of the `for`
loop of `setup_sensors`, lines 201-261).  An `.error` is the
`UnboundLocalError` escaping from the `except` handlers; every other
failure (missing key, duplicate name, backend rejection) is caught by
those handlers and results in the sensor being skipped. -/
def sensorStep (responses : Nat → SpawnResult) (attachedVehicleId : Int)
    (ls : SensorLoop) (spec : SensorCfg) : Except String SensorLoop :=
  match spec.type with
  | none => if ls.nameBound then .ok ls else .error unboundSensorName
  | some sensorType =>
    match spec.id with
    | none => if ls.nameBound then .ok ls else .error unboundSensorName
    | some sensorId =>
      let sensorName := sensorType ++ "/" ++ sensorId
      let ls1 : SensorLoop := { ls with nameBound := true }
      if sensorName ∈ ls1.names then
        -- the NameError raised for a duplicate formats sensor_spec["id"],
        -- which was already popped: the resulting KeyError is caught and
        -- the sensor is skipped either way
        .ok ls1
      else
        let ls2 : SensorLoop := { ls1 with names := ls1.names ++ [sensorName] }
        match sensorTransform attachedVehicleId sensorType spec.spawn_point with
        | none => .ok ls2
        | some transform =>
          let req : SpawnReq :=
            ⟨sensorType, sensorId, attachedVehicleId, transform, false, spec.attributes⟩
          let response := responses ls2.st.calls.length
          let ls3 : SensorLoop := { ls2 with st := { ls2.st with calls := ls2.st.calls ++ [req] } }
          if response.id = -1 then
            -- backend rejection raises, the handler logs and continues
            .ok ls3
          else
            .ok { ls3 with actors := ls3.actors ++ [response.id] }

/-- Folds `sensorStep` over the batch; an escaping error aborts the loop
(the raised exception discards the partial `actors` result). -/
def setupSensorsLoop (responses : Nat → SpawnResult) (attachedVehicleId : Int) :
    List SensorCfg → SensorLoop → SensorLoop × Option String
  | [], ls => (ls, none)
  | spec :: rest, ls =>
    match sensorStep responses attachedVehicleId ls spec with
    | .error e => (ls, some e)
    | .ok ls1 => setupSensorsLoop responses attachedVehicleId rest ls1

/-- Embeds `setup_sensors` (lines 191-262).  Returns the updated node
state (its call trace extended by every request issued), the list of ids
of the sensors spawned successfully, and `some e` when an exception
escaped the loop (in which case the returned id list is discarded by the
caller, as the Python return never executes). -/
def setupSensors (responses : Nat → SpawnResult) (sensors : List SensorCfg)
    (attachedVehicleId : Int) (st : SpawnState) :
    SpawnState × List Int × Option String :=
  let (ls, e) := setupSensorsLoop responses attachedVehicleId sensors ⟨st, [], [], false⟩
  (ls.st, ls.actors, e)

/-- Config-file spawn point of a vehicle (lines 152-166): all six keys are
indexed directly, so a missing one raises `KeyError`, which is caught —
the spawn point stays unset and a random one will be used. -/
def configSpawnPoint (v : ActorCfg) : Option Pose :=
  match v.spawn_point with
  | none => none
  | some sp =>
    match sp.x, sp.y, sp.z, sp.roll, sp.pitch, sp.yaw with
    | some x, some y, some z, some roll, some pitch, some yaw =>
      some (createSpawnPoint x y z roll pitch yaw)
    | _, _, _, _, _, _ => none

/-- Spawn-point resolution for a vehicle (lines 137-167): try the runtime
override parameter `spawn_point_<id>` first (a parse failure is logged
and falls through), then the config-file spawn point; `none` means a
random spawn point will be requested. -/
def resolveVehicleSpawnPoint (params : String → Option String) (v : ActorCfg) :
    Option Pose :=
  match params ("spawn_point_" ++ v.id) with
  | some s =>
    match checkSpawnPointParam s with
    | some pose => some pose
    | none => configSpawnPoint v
  | none => configSpawnPoint v

/-- Spawn request built for a vehicle (lines 131-135 and 168-172): pose
from the resolution above, or an empty pose with `random_pose` set when
resolution produced nothing. -/
def vehicleSpawnRequest (params : String → Option String) (v : ActorCfg) : SpawnReq :=
  match resolveVehicleSpawnPoint params v with
  | some pose => ⟨v.type, v.id, 0, pose, false, []⟩
  | none => ⟨v.type, v.id, 0, Pose.empty, true, []⟩

/-- Embeds the `while not player_spawned` loop (lines 174-180): reissue
the same spawn request until the backend answers with an id other than
`-1`.  The loop has no cap in the source; `fuel` only bounds how far the
model unrolls it, and `none` means the loop was still running after
`fuel` attempts. -/
def spawnRetry (responses : Nat → SpawnResult) (req : SpawnReq) :
    Nat → SpawnState → Option (SpawnState × Int)
  | 0, _ => none
  | fuel + 1, st =>
    let response := responses st.calls.length
    let st1 : SpawnState := { st with calls := st.calls ++ [req] }
    if response.id = -1 then spawnRetry responses req fuel st1
    else some (st1, response.id)

/-- Message wrapped around a failure while setting up the sensors of an
already spawned vehicle (line 128). -/
def sensorsOfSpawnedFail (vid e : String) : String :=
  "Setting up sensors of already spawned vehicle " ++ vid ++ " failed with error: " ++ e

/-- Embeds `setup_vehicles` (lines 113-189), threading the node state and
the accumulated local `players` list.  In sensors-only mode a vehicle
with no `carla_id` key breaks out of the loop (line 123) and a missing
`sensors` field raises (lines 126-129); in normal mode the vehicle is
spawned through the retry loop, the returned id is appended to `players`,
and its sensors are provisioned (a missing `sensors` field is only a
warning, line 185-187, while an exception escaping `setup_sensors` is not
a `KeyError` and propagates).  The result is `none` when a retry loop was
still running after `fuel` attempts, and otherwise the final state, the
players list and an optional escaped exception. -/
def setupVehicles (sso : PyVal) (params : String → Option String)
    (responses : Nat → SpawnResult) (fuel : Nat) :
    List ActorCfg → SpawnState → List Int → Option (SpawnState × List Int × Option String)
  | [], st, players => some (st, players, none)
  | v :: rest, st, players =>
    if sso.isTrue then
      match v.carla_id with
      | none =>
        -- logerr, then break: the loop exits and returns the players so far
        some (st, players, none)
      | some carlaId =>
        match v.sensors with
        | none =>
          -- vehicle["sensors"] raises KeyError, caught and re-raised wrapped
          some (st, players, some (sensorsOfSpawnedFail v.id "sensors"))
        | some sensorCfgs =>
          match setupSensors responses sensorCfgs carlaId st with
          | (st1, _, some e) => some (st1, players, some (sensorsOfSpawnedFail v.id e))
          | (st1, ids, none) =>
            setupVehicles sso params responses fuel rest
              { st1 with vehiclesSensors := st1.vehiclesSensors ++ [ids] } players
    else
      let req := vehicleSpawnRequest params v
      match spawnRetry responses req fuel st with
      | none => none
      | some (st1, newId) =>
        match v.sensors with
        | none =>
          -- vehicle["sensors"] raises KeyError: caught, only a warning
          setupVehicles sso params responses fuel rest st1 (players ++ [newId])
        | some sensorCfgs =>
          match setupSensors responses sensorCfgs newId st1 with
          | (st2, _, some e) =>
            -- an UnboundLocalError is not a KeyError: it propagates
            some (st2, players, some e)
          | (st2, ids, none) =>
            setupVehicles sso params responses fuel rest
              { st2 with vehiclesSensors := st2.vehiclesSensors ++ [ids] } (players ++ [newId])

/-- Validation message raised when sensors-only mode lacks the actor-list
sensor (lines 96-97, quotes elided). -/
def sensorsOnlyValidationMsg : String :=
  "Parameter spawn_sensors_only enabled, but sensor.pseudo.actor_list is not instantiated, add it to your config file."

/-- Embeds `spawn_objects` (lines 63-111) from the point where the
configuration file has been read (file access is external plumbing):
classify the entries, validate sensors-only mode, provision the global
sensors, look up the backend ids of already spawned vehicles in
sensors-only mode, and provision the vehicles.  The result is `none`
when a retry loop was still running after `fuel` attempts, and otherwise
the final node state together with the raised exception, if any. -/
def spawnObjects (sso : PyVal) (params : String → Option String)
    (getActor : String → Int) (responses : Nat → SpawnResult) (fuel : Nat)
    (objects : List ActorCfg) : Option (SpawnState × Option String) :=
  let classified := classify sso objects
  let globalSensorCfgs := classified.1
  let vehicleCfgs := classified.2.1
  let foundSensorActorList := classified.2.2
  if sso.isTrue ∧ foundSensorActorList = false then
    some (SpawnState.init, some sensorsOnlyValidationMsg)
  else
    match setupSensors responses (globalSensorCfgs.map ActorCfg.asSensor) 0 SpawnState.init with
    | (st1, _, some e) => some (st1, some ("Setting up global sensors failed: " ++ e))
    | (st1, gids, none) =>
      let st2 : SpawnState := { st1 with globalSensors := gids }
      let vehicleCfgs1 :=
        if sso.isTrue then
          vehicleCfgs.map (fun v => { v with carla_id := some (getActor v.id) })
        else vehicleCfgs
      match setupVehicles sso params responses fuel vehicleCfgs1 st2 [] with
      | none => none
      | some (st3, _, some e) => some (st3, some ("Setting up vehicles failed: " ++ e))
      | some (st3, players, none) => some ({ st3 with players := players }, none)

/-- Outcome of one call to the destroy service: either a normal reply or a
raised `rospy.ServiceException`. -/
inductive DestroyOutcome where
  | ok : DestroyOutcome
  | serviceError : DestroyOutcome
deriving DecidableEq

/-- Inner destroy loop over a list of actor ids (each of the three loops
of `destroy`, lines 299-304, 309-314, 318-323): a request is issued per
id and a `ServiceException` is caught and logged, the loop continuing
either way.  Returns the ids for which a destroy request was issued and
the updated call counter. -/
def destroyList (backend : Nat → DestroyOutcome) (k : Nat) :
    List Int → List Int × Nat
  | [] => ([], k)
  | actorId :: rest =>
    match backend k with
    | .ok =>
      let (tr, k1) := destroyList backend (k + 1) rest
      (actorId :: tr, k1)
    | .serviceError =>
      -- caught: rospy.logwarn_once, then continue with the next id
      let (tr, k1) := destroyList backend (k + 1) rest
      (actorId :: tr, k1)

/-- Destroy loop over the per-vehicle sensor groups (lines 308-314):
outer order is vehicle spawn order, inner order sensor spawn order. -/
def destroyGroups (backend : Nat → DestroyOutcome) (k : Nat) :
    List (List Int) → List Int × Nat
  | [] => ([], k)
  | g :: rest =>
    let (tr, k1) := destroyList backend k g
    let (tr2, k2) := destroyGroups backend k1 rest
    (tr ++ tr2, k2)

/-- Embeds `destroy` (lines 294-324): destroy all global sensors, then
every vehicle sensor group, then all players, clearing each collection
afterwards.  Returns the cleared state and the trace of actor ids for
which a destroy request was issued, in order. -/
def destroy (backend : Nat → DestroyOutcome) (st : SpawnState) :
    SpawnState × List Int :=
  let (tr1, k1) := destroyList backend 0 st.globalSensors
  let (tr2, k2) := destroyGroups backend k1 st.vehiclesSensors
  let (tr3, _) := destroyList backend k2 st.players
  ({ st with globalSensors := [], vehiclesSensors := [], players := [] },
    tr1 ++ tr2 ++ tr3)

/-! Helper lemmas shared by the claim theorems. -/

/-- The type string of the actor-list pseudo sensor has category `sensor`. -/
theorem actorCategory_actor_list :
    actorCategory "sensor.pseudo.actor_list" = "sensor" := by decide

/-- Characterisation of the classification loop: the two buckets are the
filters of the type-category predicates (independent of the sensors-only
parameter), and the found-flag is set iff the parameter is truthy and
some entry is the actor-list pseudo sensor. -/
theorem classify_eq (sso : PyVal) (objects : List ActorCfg) :
    classify sso objects =
      (objects.filter (fun a => actorCategory a.type == "sensor"),
       objects.filter (fun a =>
         (actorCategory a.type == "vehicle") || (actorCategory a.type == "walker")),
       sso.truthy && objects.any (fun a => a.type == "sensor.pseudo.actor_list")) := by
  induction objects with
  | nil => simp [classify]
  | cons a rest ih =>
    simp only [classify, ih, List.filter_cons, List.any_cons]
    by_cases h1 : a.type = "sensor.pseudo.actor_list" ∧ sso.truthy = true
    · have hcat : actorCategory a.type = "sensor" := by
        rw [h1.1]; exact actorCategory_actor_list
      simp [h1.1, h1.2, hcat, actorCategory_actor_list]
    · by_cases h2 : actorCategory a.type = "sensor"
      · by_cases h3 : a.type = "sensor.pseudo.actor_list"
        · have hns : sso.truthy = false := by
            cases hst : sso.truthy
            · rfl
            · exact absurd ⟨h3, hst⟩ h1
          simp [h1, h2, h3, hns, actorCategory_actor_list]
        · have hb3 : (a.type == "sensor.pseudo.actor_list") = false := by
            simpa using h3
          simp [h1, h2, h3, hb3]
      · have h3 : a.type ≠ "sensor.pseudo.actor_list" := by
          intro h; exact h2 (h ▸ actorCategory_actor_list)
        have hb3 : (a.type == "sensor.pseudo.actor_list") = false := by
          simpa using h3
        by_cases h4 : actorCategory a.type = "vehicle" ∨ actorCategory a.type = "walker"
        · simp [h1, h2, h3, h4, hb3]
        · simp [h1, h2, h3, h4, hb3]

/-- A destroy loop issues exactly one request per recorded id, in order,
whatever the per-call outcomes are. -/
theorem destroyList_eq (backend : Nat → DestroyOutcome) (ids : List Int) :
    ∀ k, destroyList backend k ids = (ids, k + ids.length) := by
  induction ids with
  | nil => intro k; simp [destroyList]
  | cons i rest ih =>
    intro k
    simp only [destroyList]
    cases backend k <;> simp [ih] <;> omega

/-- The destroy loop over vehicle sensor groups issues one request per id,
group by group. -/
theorem destroyGroups_eq (backend : Nat → DestroyOutcome) (gs : List (List Int)) :
    ∀ k, destroyGroups backend k gs = (gs.flatten, k + (gs.map List.length).sum) := by
  induction gs with
  | nil => intro k; simp [destroyGroups]
  | cons g rest ih =>
    intro k
    simp [destroyGroups, destroyList_eq, ih, Nat.add_assoc]

/-- Full characterisation of `destroy`: the three collections are cleared
and the issued destroy requests are exactly all global sensor ids, then
the vehicle sensor groups in order, then the player ids — independent of
which calls raise. -/
theorem destroy_eq (backend : Nat → DestroyOutcome) (st : SpawnState) :
    destroy backend st =
      ({ st with globalSensors := [], vehiclesSensors := [], players := [] },
        st.globalSensors ++ st.vehiclesSensors.flatten ++ st.players) := by
  simp [destroy, destroyList_eq, destroyGroups_eq]

/-! Claim theorems. -/

/-- C5 (confirmed): every configuration entry is routed into exactly one
of global sensors (type category `sensor` before the first dot, which
includes `sensor.pseudo.actor_list`), entities (category `vehicle` or
`walker`), or skipped-with-a-warning (neither filter retains it); the
buckets are filters of predicates on the type string alone, so the
routing is decided solely by the type string, and the found-flag records
an actor-list entry exactly when the sensors-only parameter is truthy. -/
theorem c5_classification_partition (sso : PyVal) (objects : List ActorCfg) :
    classify sso objects =
      (objects.filter (fun a => actorCategory a.type == "sensor"),
       objects.filter (fun a =>
         (actorCategory a.type == "vehicle") || (actorCategory a.type == "walker")),
       sso.truthy && objects.any (fun a => a.type == "sensor.pseudo.actor_list")) :=
  classify_eq sso objects

/-- C6 (confirmed): when sensors-only mode is requested (the parameter is
the boolean `True`) and no entry is the actor-list pseudo sensor,
`spawn_objects` raises the validation error with the call trace still
empty — no spawn request was issued to the backend. -/
theorem c6_sensors_only_validation (params : String → Option String)
    (getActor : String → Int) (responses : Nat → SpawnResult) (fuel : Nat)
    (objects : List ActorCfg)
    (h : ∀ a ∈ objects, a.type ≠ "sensor.pseudo.actor_list") :
    spawnObjects (.bool true) params getActor responses fuel objects =
        some (SpawnState.init, some sensorsOnlyValidationMsg)
      ∧ SpawnState.init.calls = [] := by
  refine ⟨?_, rfl⟩
  have hany : (objects.any (fun a => a.type == "sensor.pseudo.actor_list")) = false := by
    simp only [List.any_eq_false]
    intro a ha
    simpa using h a ha
  simp [spawnObjects, classify_eq, hany, PyVal.isTrue, PyVal.truthy]

/-- C6 witness: a concrete sensors-only run whose configuration has one
vehicle and no actor-list sensor fails validation with an empty trace. -/
theorem c6_witness :
    spawnObjects (.bool true) (fun _ => Option.none) (fun _ => 0)
        (fun _ => ⟨42, ""⟩) 5 [⟨"vehicle.tesla.model3", "ego", none, none, none, []⟩] =
        some (SpawnState.init, some sensorsOnlyValidationMsg)
      ∧ SpawnState.init.calls = [] :=
  c6_sensors_only_validation (fun _ => Option.none) (fun _ => 0) (fun _ => ⟨42, ""⟩) 5
    [⟨"vehicle.tesla.model3", "ego", none, none, none, []⟩]
    (by intro a ha; simp at ha; simp [ha])

/-- C8 (confirmed): teardown issues one destroy request per recorded id in
the fixed order global sensors, then each vehicle sensor group in spawn
order, then players; a raised `ServiceException` on any call is caught
and the remaining destroys still run (the trace does not depend on the
backend outcomes); afterwards all three collections are empty. -/
theorem c8_teardown_order_and_clear (backend : Nat → DestroyOutcome) (st : SpawnState) :
    destroy backend st =
      ({ st with globalSensors := [], vehiclesSensors := [], players := [] },
        st.globalSensors ++ st.vehiclesSensors.flatten ++ st.players) :=
  destroy_eq backend st

/-- C9 (confirmed): a second teardown right after a first one issues no
destroy request (its trace is empty) and leaves the already emptied
collections unchanged, whatever either backend does. -/
theorem c9_second_teardown_noop (b1 b2 : Nat → DestroyOutcome) (st : SpawnState) :
    destroy b2 (destroy b1 st).1 = ((destroy b1 st).1, []) := by
  simp [destroy_eq]

/-- Vehicle configuration whose spawn point carries x, y and z but no
roll, pitch or yaw, with no runtime override registered. -/
def vehicleMissingRoll : ActorCfg :=
  ⟨"vehicle.tesla.model3", "ego", some ⟨some 1, some 2, some 3, none, none, none⟩,
    none, none, []⟩

/-- C1 counterexample: for a vehicle whose config spawn point has x, y, z
but no roll/pitch/yaw and no runtime override, the claim predicts the
pose `createSpawnPoint 1 2 3 0 0 0` (roll, pitch, yaw defaulting to 0.0);
the code instead treats the missing keys as a `KeyError` and falls
through to random placement. -/
theorem c1_counterexample :
    resolveVehicleSpawnPoint (fun _ => Option.none) vehicleMissingRoll ≠
        some (createSpawnPoint 1 2 3 0 0 0)
      ∧ resolveVehicleSpawnPoint (fun _ => Option.none) vehicleMissingRoll = none
      ∧ (vehicleSpawnRequest (fun _ => Option.none) vehicleMissingRoll).random_pose = true := by
  refine ⟨?_, rfl, rfl⟩
  decide

/-- C1 (amended): for a vehicle whose config spawn point is consulted
(runtime override absent or unusable), all six of x, y, z, roll, pitch
and yaw are required; a missing one — any of the six — is a non-fatal
`KeyError` that falls through to random placement, and no defaulting to
0.0 occurs.  When all six are present the config pose is used. -/
theorem c1_config_spawn_point_requires_all_six (params : String → Option String)
    (v : ActorCfg) (sp : SpawnPointCfg)
    (hov : ∀ s, params ("spawn_point_" ++ v.id) = some s → checkSpawnPointParam s = none)
    (hsp : v.spawn_point = some sp) :
    resolveVehicleSpawnPoint params v =
        (match sp.x, sp.y, sp.z, sp.roll, sp.pitch, sp.yaw with
         | some x, some y, some z, some roll, some pitch, some yaw =>
           some (createSpawnPoint x y z roll pitch yaw)
         | _, _, _, _, _, _ => none)
      ∧ (vehicleSpawnRequest params v).random_pose =
          (resolveVehicleSpawnPoint params v).isNone := by
  constructor
  · have hres : resolveVehicleSpawnPoint params v = configSpawnPoint v := by
      unfold resolveVehicleSpawnPoint
      cases hp : params ("spawn_point_" ++ v.id) with
      | none => rfl
      | some s => simp only [hov s hp]
    rw [hres]
    simp only [configSpawnPoint, hsp]
  · unfold vehicleSpawnRequest
    cases resolveVehicleSpawnPoint params v <;> rfl

/-- C1 witness: the amended claim evaluated on the concrete vehicle with a
roll-less config spawn point: resolution is `none` and a random spawn
point is requested. -/
theorem c1_witness :
    resolveVehicleSpawnPoint (fun _ => Option.none) vehicleMissingRoll = none
      ∧ (vehicleSpawnRequest (fun _ => Option.none) vehicleMissingRoll).random_pose =
          (resolveVehicleSpawnPoint (fun _ => Option.none) vehicleMissingRoll).isNone := by
  have h := c1_config_spawn_point_requires_all_six (fun _ => Option.none)
    vehicleMissingRoll ⟨some 1, some 2, some 3, none, none, none⟩
    (fun s hs => by exact absurd hs (by simp)) rfl
  exact h

/-- First vehicle of the C2 counterexample: sensors-only mode, no
`carla_id` key. -/
def c2VehicleNoId : ActorCfg := ⟨"vehicle.audi.a2", "hero", none, some [], none, []⟩

/-- Second vehicle of the C2 counterexample: its backend id is known and
it carries one attached camera, which would be spawned if processing
continued. -/
def c2VehicleKnown : ActorCfg :=
  ⟨"vehicle.audi.a2", "other", none,
    some [⟨some "sensor.camera.rgb", some "front", none, []⟩], some 7, []⟩

/-- C2 counterexample: in sensors-only mode, a first vehicle without
`carla_id` makes the loop `break` (line 123): the result is the untouched
state with an empty call trace and no sensor group — the second vehicle's
camera is never provisioned, contradicting the claim that processing
continues with the next entity. -/
theorem c2_counterexample :
    setupVehicles (.bool true) (fun _ => Option.none) (fun k => ⟨(10 + k : Int), ""⟩) 5
        [c2VehicleNoId, c2VehicleKnown] SpawnState.init [] =
        some (SpawnState.init, [], none)
      ∧ SpawnState.init.calls = [] ∧ SpawnState.init.vehiclesSensors = [] := by
  refine ⟨?_, rfl, rfl⟩
  decide

/-- C2 (amended): in sensors-only mode, when an entity's pre-existing
backend identifier is unknown (no `carla_id` key), its sensor
provisioning is skipped with an error reported and the entity loop is
aborted (`break`): the remaining entities are not processed either, and
the players accumulated so far are returned with the state unchanged. -/
theorem c2_unknown_id_aborts_loop (sso : PyVal) (params : String → Option String)
    (responses : Nat → SpawnResult) (fuel : Nat) (v : ActorCfg) (rest : List ActorCfg)
    (st : SpawnState) (players : List Int)
    (hsso : sso.isTrue = true) (hcid : v.carla_id = none) :
    setupVehicles sso params responses fuel (v :: rest) st players =
      some (st, players, none) := by
  unfold setupVehicles
  rw [hsso, hcid]
  rfl

/-- C2 witness: the amended claim evaluated on the concrete two-vehicle
batch: the loop exits at the first vehicle and returns the state as-is. -/
theorem c2_witness :
    setupVehicles (.bool true) (fun _ => Option.none) (fun k => ⟨(10 + k : Int), ""⟩) 5
        [c2VehicleNoId, c2VehicleKnown] SpawnState.init [] =
      some (SpawnState.init, [], none) :=
  c2_unknown_id_aborts_loop (.bool true) (fun _ => Option.none)
    (fun k => ⟨(10 + k : Int), ""⟩) 5 c2VehicleNoId [c2VehicleKnown]
    SpawnState.init [] rfl rfl

/-- C3 (confirmed): spawn-point precedence for a vehicle.  A parseable
six-field runtime override always wins; when the override is absent or
unusable, a complete config spawn point is used; the spawn request asks
for random placement exactly when resolution produced no pose; and an
override whose comma-split does not have exactly six fields is always
rejected by the parser. -/
theorem c3_spawn_point_precedence (params : String → Option String) (v : ActorCfg) :
    (∀ s pose, params ("spawn_point_" ++ v.id) = some s →
       checkSpawnPointParam s = some pose →
       resolveVehicleSpawnPoint params v = some pose)
    ∧ (∀ sp x y z roll pitch yaw,
         (∀ s, params ("spawn_point_" ++ v.id) = some s → checkSpawnPointParam s = none) →
         v.spawn_point = some sp →
         sp.x = some x → sp.y = some y → sp.z = some z →
         sp.roll = some roll → sp.pitch = some pitch → sp.yaw = some yaw →
         resolveVehicleSpawnPoint params v = some (createSpawnPoint x y z roll pitch yaw))
    ∧ ((vehicleSpawnRequest params v).random_pose = true ↔
         resolveVehicleSpawnPoint params v = none)
    ∧ (∀ s, (splitOnChar ',' s).length ≠ 6 → checkSpawnPointParam s = none) := by
  refine ⟨?_, ?_, ?_, ?_⟩
  · intro s pose hp hc
    unfold resolveVehicleSpawnPoint
    simp only [hp, hc]
  · intro sp x y z roll pitch yaw hov hsp hx hy hz hr hpi hyaw
    have hres : resolveVehicleSpawnPoint params v = configSpawnPoint v := by
      unfold resolveVehicleSpawnPoint
      cases hp : params ("spawn_point_" ++ v.id) with
      | none => rfl
      | some s => simp only [hov s hp]
    rw [hres]
    simp only [configSpawnPoint, hsp]
    rw [hx, hy, hz, hr, hpi, hyaw]
  · unfold vehicleSpawnRequest
    cases resolveVehicleSpawnPoint params v <;> simp
  · intro s hlen
    unfold checkSpawnPointParam
    simp [hlen]

/-- C3 witness: with a parseable override registered for `ego` the
override pose wins over a complete config spawn point; with an unusable
three-field override the config pose is used; a two-field override never
parses. -/
theorem c3_witness :
    resolveVehicleSpawnPoint
        (fun k => if k = "spawn_point_ego" then some "1,2,3,4,5,6" else Option.none)
        ⟨"vehicle.audi.a2", "ego", some ⟨some 9, some 9, some 9, some 9, some 9, some 9⟩,
          none, none, []⟩ = some (createSpawnPoint 1 2 3 4 5 6)
      ∧ resolveVehicleSpawnPoint
          (fun k => if k = "spawn_point_ego" then some "1,2,3" else Option.none)
          ⟨"vehicle.audi.a2", "ego", some ⟨some 9, some 9, some 9, some 9, some 9, some 9⟩,
            none, none, []⟩ = some (createSpawnPoint 9 9 9 9 9 9)
      ∧ checkSpawnPointParam "1,2" = none := by
  refine ⟨?_, ?_, ?_⟩
  · exact (c3_spawn_point_precedence
      (fun k => if k = "spawn_point_ego" then some "1,2,3,4,5,6" else Option.none)
      ⟨"vehicle.audi.a2", "ego", some ⟨some 9, some 9, some 9, some 9, some 9, some 9⟩,
        none, none, []⟩).1 "1,2,3,4,5,6" (createSpawnPoint 1 2 3 4 5 6)
      (by decide) (by decide)
  · exact (c3_spawn_point_precedence
      (fun k => if k = "spawn_point_ego" then some "1,2,3" else Option.none)
      ⟨"vehicle.audi.a2", "ego", some ⟨some 9, some 9, some 9, some 9, some 9, some 9⟩,
        none, none, []⟩).2.1 ⟨some 9, some 9, some 9, some 9, some 9, some 9⟩
      9 9 9 9 9 9
      (fun s hs => by
        have : s = "1,2,3" := by
          by_cases h : ("spawn_point_" ++ "ego" : String) = "spawn_point_ego"
          · simp [h] at hs; exact hs.symm
          · exact absurd rfl h
        rw [this]; decide)
      rfl rfl rfl rfl rfl rfl rfl
  · exact (c3_spawn_point_precedence (fun _ => Option.none)
      ⟨"vehicle.audi.a2", "ego", none, none, none, []⟩).2.2.2 "1,2" (by decide)

/-- While every response seen so far is the sentinel, the retry loop is
still running: with any unroll budget of at most `n` attempts it has not
produced a result — the loop never gives up on its own. -/
theorem spawnRetry_still_running (responses : Nat → SpawnResult) (req : SpawnReq) :
    ∀ n st, (∀ m, m < n → (responses (st.calls.length + m)).id = -1) →
      ∀ fuel, fuel ≤ n → spawnRetry responses req fuel st = none := by
  intro n
  induction n with
  | zero =>
    intro st _ fuel hfuel
    have : fuel = 0 := Nat.le_zero.mp hfuel
    subst this
    rfl
  | succ n ih =>
    intro st hmin fuel hfuel
    cases fuel with
    | zero => rfl
    | succ fuel =>
      have h0 : (responses st.calls.length).id = -1 := by
        have := hmin 0 (Nat.succ_pos n)
        simpa using this
      simp only [spawnRetry, h0, if_pos]
      apply ih
      · intro m hm
        have := hmin (m + 1) (Nat.succ_lt_succ hm)
        simpa [List.length_append, Nat.add_comm, Nat.add_assoc, Nat.add_left_comm] using this
      · exact Nat.succ_le_succ_iff.mp hfuel

/-- When attempt `n` is the first whose response id is not the sentinel,
any unroll budget beyond `n` makes the loop stop there: the same request
was issued exactly `n + 1` times and the result is that first
non-sentinel id. -/
theorem spawnRetry_first_success (responses : Nat → SpawnResult) (req : SpawnReq) :
    ∀ n st, (∀ m, m < n → (responses (st.calls.length + m)).id = -1) →
      (responses (st.calls.length + n)).id ≠ -1 →
      ∀ fuel, n < fuel →
        spawnRetry responses req fuel st =
          some ({ st with calls := st.calls ++ List.replicate (n + 1) req },
            (responses (st.calls.length + n)).id) := by
  intro n
  induction n with
  | zero =>
    intro st _ hn fuel hfuel
    cases fuel with
    | zero => exact absurd hfuel (by omega)
    | succ fuel =>
      have h0 : (responses st.calls.length).id ≠ -1 := by simpa using hn
      simp [spawnRetry, h0]
  | succ n ih =>
    intro st hmin hn fuel hfuel
    cases fuel with
    | zero => exact absurd hfuel (by omega)
    | succ fuel =>
      have h0 : (responses st.calls.length).id = -1 := by
        have := hmin 0 (Nat.succ_pos n)
        simpa using this
      simp only [spawnRetry, h0, if_pos]
      have hlen : ({ st with calls := st.calls ++ [req] } : SpawnState).calls.length =
          st.calls.length + 1 := by simp
      rw [ih { st with calls := st.calls ++ [req] }
        (by intro m hm
            have := hmin (m + 1) (Nat.succ_lt_succ hm)
            simpa [Nat.add_comm, Nat.add_assoc, Nat.add_left_comm] using this)
        (by simpa [Nat.add_comm, Nat.add_assoc, Nat.add_left_comm] using hn)
        fuel (by omega)]
      simp [List.append_assoc, List.replicate_succ, Nat.add_comm, Nat.add_assoc,
        Nat.add_left_comm]

/-- C4 (confirmed): in normal mode the spawn request of an entity is
re-issued in a loop until the first response whose id is not the failure
sentinel `-1`.  There is no cap: as long as only sentinels have been
returned the loop is still running under any finite unroll budget, and
once attempt `n` is the first non-sentinel one, exactly `n + 1` identical
requests were issued, that first non-sentinel id is the one appended to
the players accumulator, and the loop moves on to the remaining
entities.  (Stated for an entity with no `sensors` field, which spawns
with zero sensors.) -/
theorem c4_retry_until_non_sentinel (responses : Nat → SpawnResult)
    (params : String → Option String) (v : ActorCfg) (rest : List ActorCfg)
    (st : SpawnState) (players : List Int) (n : Nat)
    (hmin : ∀ m, m < n → (responses (st.calls.length + m)).id = -1)
    (hn : (responses (st.calls.length + n)).id ≠ -1)
    (hs : v.sensors = none) :
    (∀ fuel, fuel ≤ n →
       setupVehicles (.bool false) params responses fuel (v :: rest) st players = none)
    ∧ (∀ fuel, n < fuel →
        setupVehicles (.bool false) params responses fuel (v :: rest) st players =
          setupVehicles (.bool false) params responses fuel rest
            { st with calls :=
                st.calls ++ List.replicate (n + 1) (vehicleSpawnRequest params v) }
            (players ++ [(responses (st.calls.length + n)).id])) := by
  constructor
  · intro fuel hfuel
    simp only [setupVehicles, PyVal.isTrue, Bool.false_eq_true, if_false]
    rw [spawnRetry_still_running responses (vehicleSpawnRequest params v) n st hmin fuel hfuel]
  · intro fuel hfuel
    conv_lhs => rw [setupVehicles]
    simp only [PyVal.isTrue, Bool.false_eq_true, if_false]
    rw [spawnRetry_first_success responses (vehicleSpawnRequest params v) n st hmin hn fuel hfuel]
    rw [hs]

/-- C4 witness: a backend that answers the sentinel twice and then id 42:
with budget 2 the loop is still running, with budget 3 the vehicle spawn
request was issued three times and `42` is appended to the players
accumulator, with no further entity left to process. -/
theorem c4_witness :
    (setupVehicles (.bool false) (fun _ => Option.none)
        (fun k => if k < 2 then (⟨-1, "busy"⟩ : SpawnResult) else ⟨42, ""⟩) 2
        [⟨"vehicle.tesla.model3", "ego", none, none, none, []⟩] SpawnState.init [] = none)
    ∧ (setupVehicles (.bool false) (fun _ => Option.none)
        (fun k => if k < 2 then (⟨-1, "busy"⟩ : SpawnResult) else ⟨42, ""⟩) 3
        [⟨"vehicle.tesla.model3", "ego", none, none, none, []⟩] SpawnState.init [] =
        setupVehicles (.bool false) (fun _ => Option.none)
          (fun k => if k < 2 then (⟨-1, "busy"⟩ : SpawnResult) else ⟨42, ""⟩) 3 []
          { SpawnState.init with calls :=
              SpawnState.init.calls ++ List.replicate 3 (vehicleSpawnRequest (fun _ => Option.none)
                ⟨"vehicle.tesla.model3", "ego", none, none, none, []⟩) }
          ([] ++ [((fun k => if k < 2 then (⟨-1, "busy"⟩ : SpawnResult) else ⟨42, ""⟩)
              (SpawnState.init.calls.length + 2)).id]))
    ∧ ([] ++ [((fun k => if k < 2 then (⟨-1, "busy"⟩ : SpawnResult) else ⟨42, ""⟩)
          (SpawnState.init.calls.length + 2)).id] : List Int) = [42] := by
  have h := c4_retry_until_non_sentinel
    (fun k => if k < 2 then (⟨-1, "busy"⟩ : SpawnResult) else ⟨42, ""⟩)
    (fun _ => Option.none) ⟨"vehicle.tesla.model3", "ego", none, none, none, []⟩
    [] SpawnState.init [] 2
    (by intro m hm; interval_cases m <;> rfl)
    (by decide) rfl
  exact ⟨h.1 2 (by omega), h.2 3 (by omega), by decide⟩

/-- Processing a sensor whose derived name is already among the collected
names (with the local `sensor_name` already bound by an earlier
iteration) changes nothing: the sensor is skipped before any spawn
request is issued. -/
theorem sensorStep_dup (responses : Nat → SpawnResult) (aid : Int)
    (ls : SensorLoop) (spec : SensorCfg) (t i : String)
    (ht : spec.type = some t) (hi : spec.id = some i)
    (hmem : (t ++ "/" ++ i) ∈ ls.names) (hb : ls.nameBound = true) :
    sensorStep responses aid ls spec = .ok ls := by
  have hls : ({ ls with nameBound := true } : SensorLoop) = ls := by
    cases ls
    simp_all
  simp only [sensorStep, ht, hi, hls, hmem, if_pos]

/-- A successful `sensorStep` preserves collected names and the
boundedness of `sensor_name`, and when the sensor's type and id are
present its derived name is collected (whether it spawned, failed or was
a duplicate) and `sensor_name` is bound afterwards. -/
theorem sensorStep_ok_invariant (responses : Nat → SpawnResult) (aid : Int)
    (ls : SensorLoop) (spec : SensorCfg) (ls' : SensorLoop)
    (h : sensorStep responses aid ls spec = .ok ls') :
    (∀ x, x ∈ ls.names → x ∈ ls'.names)
    ∧ (ls.nameBound = true → ls'.nameBound = true)
    ∧ (∀ t i, spec.type = some t → spec.id = some i →
        (t ++ "/" ++ i) ∈ ls'.names ∧ ls'.nameBound = true) := by
  cases ht : spec.type with
  | none =>
    simp only [sensorStep, ht] at h
    by_cases hb : ls.nameBound = true
    · rw [if_pos hb] at h
      injection h with h
      subst h
      exact ⟨fun x hx => hx, fun hx => hx, fun t i ht' _ => Option.noConfusion ht'⟩
    · rw [if_neg hb] at h
      cases h
  | some sensorType =>
    cases hi : spec.id with
    | none =>
      simp only [sensorStep, ht, hi] at h
      by_cases hb : ls.nameBound = true
      · rw [if_pos hb] at h
        injection h with h
        subst h
        exact ⟨fun x hx => hx, fun hx => hx, fun t i _ hi' => Option.noConfusion hi'⟩
      · rw [if_neg hb] at h
        cases h
    | some sensorId =>
      simp only [sensorStep, ht, hi] at h
      by_cases hdup : (sensorType ++ "/" ++ sensorId) ∈ ls.names
      · simp only [if_pos hdup] at h
        injection h with h
        subst h
        refine ⟨fun x hx => hx, fun _ => rfl, fun t i ht' hi' => ?_⟩
        cases ht'
        cases hi'
        exact ⟨hdup, rfl⟩
      · simp only [if_neg hdup] at h
        have key : ls'.names = ls.names ++ [sensorType ++ "/" ++ sensorId]
            ∧ ls'.nameBound = true := by
          cases htr : sensorTransform aid sensorType spec.spawn_point with
          | none =>
            simp only [htr] at h
            injection h with h
            subst h
            exact ⟨rfl, rfl⟩
          | some transform =>
            simp only [htr] at h
            by_cases hid : (responses ls.st.calls.length).id = -1
            · simp only [if_pos hid] at h
              injection h with h
              subst h
              exact ⟨rfl, rfl⟩
            · simp only [if_neg hid] at h
              injection h with h
              subst h
              exact ⟨rfl, rfl⟩
        refine ⟨fun x hx => ?_, fun _ => key.2, fun t i ht' hi' => ?_⟩
        · rw [key.1]; exact List.mem_append_left _ hx
        · cases ht'
          cases hi'
          refine ⟨?_, key.2⟩
          rw [key.1]
          exact List.mem_append_right _ (List.mem_singleton.mpr rfl)

/-- Skipping a duplicate inside the loop: as long as the duplicate's name
was derived by some earlier sensor of the batch (or is already collected
with `sensor_name` bound), removing the duplicate from the batch does not
change the loop's result. -/
theorem setupSensorsLoop_skip_dup (responses : Nat → SpawnResult) (aid : Int)
    (d : SensorCfg) (l2 : List SensorCfg) (t i : String)
    (ht : d.type = some t) (hi : d.id = some i) :
    ∀ (l1 : List SensorCfg) (ls : SensorLoop),
      (((t ++ "/" ++ i) ∈ ls.names ∧ ls.nameBound = true)
        ∨ (∃ s ∈ l1, s.type = some t ∧ s.id = some i)) →
      setupSensorsLoop responses aid (l1 ++ d :: l2) ls =
        setupSensorsLoop responses aid (l1 ++ l2) ls := by
  intro l1
  induction l1 with
  | nil =>
    intro ls hyp
    have hmem : (t ++ "/" ++ i) ∈ ls.names ∧ ls.nameBound = true := by
      rcases hyp with h | ⟨s, hs, _⟩
      · exact h
      · simp at hs
    simp only [List.nil_append]
    conv_lhs => rw [setupSensorsLoop]
    rw [sensorStep_dup responses aid ls d t i ht hi hmem.1 hmem.2]
  | cons s l1' ih =>
    intro ls hyp
    simp only [List.cons_append]
    rw [setupSensorsLoop, setupSensorsLoop]
    cases hstep : sensorStep responses aid ls s with
    | error e => rfl
    | ok ls1 =>
      apply ih
      have inv := sensorStep_ok_invariant responses aid ls s ls1 hstep
      rcases hyp with ⟨hm, hb⟩ | ⟨s', hs', hti⟩
      · exact Or.inl ⟨inv.1 _ hm, inv.2.1 hb⟩
      · rcases List.mem_cons.mp hs' with heq | hmem'
        · subst heq
          exact Or.inl (inv.2.2 t i hti.1 hti.2)
        · exact Or.inr ⟨s', hmem', hti⟩

/-- C7 (confirmed): within one `setup_sensors` call, a sensor whose
derived name `type + "/" + id` equals that of an earlier sensor of the
same batch is skipped before any spawn request is issued for it, and the
call behaves exactly as if that duplicate were absent: the identifiers of
all previously accepted sensors are still returned and the rest of the
batch is still processed. -/
theorem c7_duplicate_sensor_skipped (responses : Nat → SpawnResult) (aid : Int)
    (st : SpawnState) (l1 : List SensorCfg) (d : SensorCfg) (l2 : List SensorCfg)
    (t i : String) (ht : d.type = some t) (hi : d.id = some i)
    (hdup : ∃ s ∈ l1, s.type = some t ∧ s.id = some i) :
    setupSensors responses (l1 ++ d :: l2) aid st =
      setupSensors responses (l1 ++ l2) aid st := by
  unfold setupSensors
  rw [setupSensorsLoop_skip_dup responses aid d l2 t i ht hi l1 ⟨st, [], [], false⟩
    (Or.inr hdup)]

/-- C7 witness: a batch with a repeated camera name `sensor.camera.rgb/front`
behaves exactly as the batch without the repetition, and the accepted
identifiers are those of the first camera and of the later distinct one. -/
theorem c7_witness :
    setupSensors (fun k => ⟨(10 + k : Int), ""⟩)
        [⟨some "sensor.camera.rgb", some "front", none, []⟩,
         ⟨some "sensor.camera.rgb", some "front", none, []⟩,
         ⟨some "sensor.camera.rgb", some "back", none, []⟩] 7 SpawnState.init =
      setupSensors (fun k => ⟨(10 + k : Int), ""⟩)
        [⟨some "sensor.camera.rgb", some "front", none, []⟩,
         ⟨some "sensor.camera.rgb", some "back", none, []⟩] 7 SpawnState.init
    ∧ (setupSensors (fun k => ⟨(10 + k : Int), ""⟩)
        [⟨some "sensor.camera.rgb", some "front", none, []⟩,
         ⟨some "sensor.camera.rgb", some "front", none, []⟩,
         ⟨some "sensor.camera.rgb", some "back", none, []⟩] 7 SpawnState.init).2.1 =
        [10, 11] := by
  constructor
  · exact c7_duplicate_sensor_skipped (fun k => ⟨(10 + k : Int), ""⟩) 7 SpawnState.init
      [⟨some "sensor.camera.rgb", some "front", none, []⟩]
      ⟨some "sensor.camera.rgb", some "front", none, []⟩
      [⟨some "sensor.camera.rgb", some "back", none, []⟩]
      "sensor.camera.rgb" "front" rfl rfl
      ⟨⟨some "sensor.camera.rgb", some "front", none, []⟩, by simp, rfl, rfl⟩
  · decide

/-- The vehicle loop consults the sensors-only parameter only through the
Python identity test `is True`: two parameter values with the same
`isTrue` outcome drive the loop identically. -/
theorem setupVehicles_isTrue_congr (sso sso' : PyVal) (h : sso.isTrue = sso'.isTrue)
    (params : String → Option String) (responses : Nat → SpawnResult) (fuel : Nat) :
    ∀ (vehicles : List ActorCfg) (st : SpawnState) (players : List Int),
      setupVehicles sso params responses fuel vehicles st players =
        setupVehicles sso' params responses fuel vehicles st players := by
  intro vehicles
  induction vehicles with
  | nil => intro st players; rfl
  | cons v rest ih =>
    intro st players
    simp only [setupVehicles]
    rw [h]
    by_cases hb : sso'.isTrue = true
    · rw [if_pos hb, if_pos hb]
      split
      · rfl
      · split
        · rfl
        · split
          · rfl
          · exact ih _ _
    · rw [if_neg hb, if_neg hb]
      split
      · rfl
      · split
        · exact ih _ _
        · split
          · rfl
          · exact ih _ _

/-- C10 (confirmed): the sensors-only behaviours are gated by the Python
identity test `is True`, while the actor-list classification branch is
gated by truthiness alone.  For any parameter value that is truthy but
not the boolean `True` (an int, a non-empty string, ...), the whole run
is indistinguishable from a run with the parameter `False` — normal mode,
the vehicles themselves are spawned — even though classification still
takes the actor-list branch and sets the found-flag exactly as with
`True`. -/
theorem c10_sensors_only_requires_exact_true (v : PyVal)
    (hT : v.truthy = true) (hF : v.isTrue = false)
    (params : String → Option String) (getActor : String → Int)
    (responses : Nat → SpawnResult) (fuel : Nat) (objects : List ActorCfg) :
    spawnObjects v params getActor responses fuel objects =
      spawnObjects (.bool false) params getActor responses fuel objects
    ∧ classify v objects = classify (.bool true) objects := by
  constructor
  · have hft : (PyVal.bool false).isTrue = false := rfl
    have hcongr := setupVehicles_isTrue_congr v (.bool false) (by rw [hF, hft])
      params responses fuel
    simp [spawnObjects, classify_eq, hF, hft, hcongr]
  · rw [classify_eq, classify_eq, hT]
    rfl

/-- C10 witness: with the truthy non-boolean parameter value 1, a run on a
config holding the actor-list sensor and one vehicle equals the
normal-mode run with `False`, and classification equals that with
`True`. -/
theorem c10_witness :
    spawnObjects (.int 1) (fun _ => Option.none) (fun _ => 0) (fun _ => ⟨42, ""⟩) 3
        [⟨"sensor.pseudo.actor_list", "actors", none, none, none, []⟩,
         ⟨"vehicle.tesla.model3", "ego", none, none, none, []⟩] =
      spawnObjects (.bool false) (fun _ => Option.none) (fun _ => 0) (fun _ => ⟨42, ""⟩) 3
        [⟨"sensor.pseudo.actor_list", "actors", none, none, none, []⟩,
         ⟨"vehicle.tesla.model3", "ego", none, none, none, []⟩]
    ∧ classify (.int 1)
        [⟨"sensor.pseudo.actor_list", "actors", none, none, none, []⟩,
         ⟨"vehicle.tesla.model3", "ego", none, none, none, []⟩] =
      classify (.bool true)
        [⟨"sensor.pseudo.actor_list", "actors", none, none, none, []⟩,
         ⟨"vehicle.tesla.model3", "ego", none, none, none, []⟩] :=
  c10_sensors_only_requires_exact_true (.int 1) rfl rfl
    (fun _ => Option.none) (fun _ => 0) (fun _ => ⟨42, ""⟩) 3
    [⟨"sensor.pseudo.actor_list", "actors", none, none, none, []⟩,
     ⟨"vehicle.tesla.model3", "ego", none, none, none, []⟩]

end CarlaSpawnObjects
